import Mathlib

/-!
Verification of the wgpu-tutorial examples (shallow embedding).

The repository is a set of small wgpu programs:
  src/example_01_triangle/src/main.rs  — render a triangle, read the texture back
  src/example_05_camera/src/main.rs    — perspective render with a depth buffer
  src/example_06_gol/src/main.rs       — Game of Life via a compute shader,
                                         ping-pong between two textures

We embed, from the source, the host-visible control decisions of these
programs: the buffer-map protocol traces they perform, the ping-pong slot
selection, the workgroup dispatch arithmetic, the staging-buffer
descriptors, the device-initialization control flow, and the depth-stencil
configuration.  The internal buffer-mapping state machine belongs to the
wgpu library (not part of this repository), so it is modelled from the
spec; the traces driving it are taken from the source.
-/

namespace WgpuTutorial

/-! ## Readback synchronizer state machine

Modelled from the spec: the spec describes the staging-buffer map protocol
as a state machine `Unmapped → MapRequested → Mapped → (release) Unmapped`.
The machine itself is implemented inside the wgpu library, which is not
part of this repository; only the host traces that drive it appear in
`src/example_01_triangle/src/main.rs` (`to_image`) and
`src/example_06_gol/src/main.rs` (`readback_buffer_data` and the loop in
`run`). -/
inductive BufferState
  | Unmapped
  | MapRequested
  | Mapped
deriving DecidableEq, Repr

/-- The single error of the map protocol described by the spec:
reading or re-targeting a buffer outside its valid window. -/
inductive ReadbackError
  | BufferBusyError
deriving DecidableEq, Repr

/-- Host-side actions touching one staging buffer, as they appear in the
source: submitting a command sequence whose copy targets the buffer
(`queue.submit` after `copy_texture_to_buffer`), `map_async`,
`device.poll(wgpu::Maintain::Wait)`, a pure host wait that drives no
device progress (e.g. awaiting a channel), `get_mapped_range`, and
`unmap`. -/
inductive HostAction
  | submit_copy
  | map_async
  | poll_wait
  | host_wait
  | get_mapped_range
  | unmap_buffer
deriving DecidableEq, Repr

/-- Modelled from the spec: one protocol step of the readback
synchronizer.  A copy may target the buffer only while `Unmapped`;
`map_async` moves `Unmapped` to `MapRequested`; the transition
`MapRequested → Mapped` happens only when the host drives device progress
(`poll_wait`); a pure host wait changes nothing; `get_mapped_range`
yields data only in `Mapped`; `unmap` releases `Mapped` back to
`Unmapped`.  Every other combination is a protocol violation surfaced as
`BufferBusyError`. -/
def stepAction (s : BufferState) (a : HostAction) : Except ReadbackError BufferState :=
  match a, s with
  | .submit_copy, .Unmapped => .ok .Unmapped
  | .submit_copy, _ => .error .BufferBusyError
  | .map_async, .Unmapped => .ok .MapRequested
  | .map_async, _ => .error .BufferBusyError
  | .poll_wait, .MapRequested => .ok .Mapped
  | .poll_wait, s => .ok s
  | .host_wait, s => .ok s
  | .get_mapped_range, .Mapped => .ok .Mapped
  | .get_mapped_range, _ => .error .BufferBusyError
  | .unmap_buffer, .Mapped => .ok .Unmapped
  | .unmap_buffer, _ => .error .BufferBusyError

/-- Run a host trace through the protocol, stopping at the first
violation. -/
def runTrace (s : BufferState) : List HostAction → Except ReadbackError BufferState
  | [] => .ok s
  | a :: rest =>
    match stepAction s a with
    | .ok s2 => runTrace s2 rest
    | .error e => .error e

/-- The buffer trace of `readback_buffer_data`
(src/example_06_gol/src/main.rs lines 333-347): `map_async`, then
`device.poll(wgpu::Maintain::Wait)`, then `get_mapped_range`. -/
def readback_buffer_data_trace : List HostAction :=
  [.map_async, .poll_wait, .get_mapped_range]

/-- The buffer trace of `to_image`
(src/example_01_triangle/src/main.rs lines 252-274): `map_async`, then
`device.poll(wgpu::Maintain::Wait)`, then awaiting the oneshot channel (a
pure host wait), then `get_mapped_range`. -/
def to_image_trace : List HostAction :=
  [.map_async, .poll_wait, .host_wait, .get_mapped_range]

/-- The per-iteration buffer trace of the Game-of-Life loop
(src/example_06_gol/src/main.rs lines 155-195): submit the command buffer
containing the copy into the staging buffer (8.2/8.3), then
`readback_buffer_data` (8.4: map_async, poll, get_mapped_range), then
drop the view and `unmap` (8.6). -/
def gol_iteration_trace : List HostAction :=
  [.submit_copy, .map_async, .poll_wait, .get_mapped_range, .unmap_buffer]

/-- The trace of `n` iterations of the Game-of-Life loop. -/
def gol_loop_trace : Nat → List HostAction
  | 0 => []
  | n + 1 => gol_iteration_trace ++ gol_loop_trace n

/-! ## Ping-pong controller (src/example_06_gol/src/main.rs)

The loop in `run` (lines 155-195) selects `bind_groups[i % 2]` for the
compute pass (line 165) and copies `grids[i % 2]` into the staging buffer
(line 170).  The two bind groups (lines 110-140) are built so that bind
group 0 binds `grid_views[0]` at binding 0 (the shader input) and
`grid_views[1]` at binding 1 (the shader output), and bind group 1 is the
same with the two views swapped.  The seed state is uploaded into
`grids[0]` (lines 80-94). -/

/-- Index of the bind group used by iteration `i`: `bind_groups[i % 2]`. -/
def selected_bind_group (i : Nat) : Nat := i % 2

/-- Index of the grid copied into the staging buffer at iteration `i`:
`grids[i % 2]`. -/
def copy_source_grid (i : Nat) : Nat := i % 2

/-- Which grid a bind group exposes at binding 0 (the input texture). -/
def bind_group_input_grid : Nat → Nat
  | 0 => 0
  | _ => 1

/-- Which grid a bind group exposes at binding 1 (the output storage
texture). -/
def bind_group_output_grid : Nat → Nat
  | 0 => 1
  | _ => 0

/-- The grid read by the compute pass of iteration `i`. -/
def input_grid (i : Nat) : Nat := bind_group_input_grid (selected_bind_group i)

/-- The grid written by the compute pass of iteration `i`. -/
def output_grid (i : Nat) : Nat := bind_group_output_grid (selected_bind_group i)

/-- The seed state is written into `grids[0]`: slot A is the initial
input role. -/
def initial_role : Nat := 0

/-- A grid's contents, as the list of its `u32` texel values in row-major
order (the textures have format `R32Uint`). -/
abbrev Grid := List Nat

/-- Contents of the two grid slots at the start of iteration `i`,
for an arbitrary per-pass transformation `f` (the compute pass reads the
input slot and overwrites the output slot with `f` of it), seed contents
`g0` in slot 0 and initial (undefined) contents `g1` in slot 1. -/
def pp_state (f : Grid → Grid) (g0 g1 : Grid) : Nat → Grid × Grid
  | 0 => (g0, g1)
  | i + 1 =>
    let s := pp_state f g0 g1 i
    if i % 2 = 0 then (s.1, f s.1) else (f s.2, s.2)

/-- Contents of grid slot `slot` at the start of iteration `i`. -/
def slot_content (f : Grid → Grid) (g0 g1 : Grid) (i slot : Nat) : Grid :=
  if slot = 0 then (pp_state f g0 g1 i).1 else (pp_state f g0 g1 i).2

/-- The grid contents copied into the staging buffer at iteration `i`:
the copy sources `grids[i % 2]`, whose contents the pass of iteration `i`
does not modify (it writes the other slot), so this equals the contents
of slot `i % 2` at the start of the iteration. -/
def observed_frame_grid (f : Grid → Grid) (g0 g1 : Grid) (i : Nat) : Grid :=
  slot_content f g0 g1 i (copy_source_grid i)

/-- The grid contents freshly written by the compute pass of iteration
`i` (read off at the start of iteration `i + 1` from the output slot). -/
def pass_written_grid (f : Grid → Grid) (g0 g1 : Grid) (i : Nat) : Grid :=
  slot_content f g0 g1 (i + 1) (output_grid i)

/-! ## Game-of-Life data pipeline (src/example_06_gol/src/main.rs) -/

/-- The random initial byte buffer uploaded into `grids[0]`
(lines 70-79): for each of the `4 * width * height` bytes, draw a random
byte `r i` and emit `1` when `r i > 200 && i % 4 == 0`, else `0`.  The
random stream `r` abstracts the successive draws of
`rand::thread_rng().gen::<u8>()`, which takes no fixed seed. -/
def init_state (r : Nat → Nat) (width height : Nat) : List Nat :=
  (List.range (4 * width * height)).map fun i =>
    if r i > 200 ∧ i % 4 = 0 then 1 else 0

/-- Little-endian reassembly of the `t`-th `u32` texel from a byte list,
as done by `bytemuck::cast_slice::<u8, u32>` (line 180). -/
def u32_from_bytes (bytes : List Nat) (t : Nat) : Nat :=
  bytes.getD (4 * t) 0 + 256 * bytes.getD (4 * t + 1) 0 +
    65536 * bytes.getD (4 * t + 2) 0 + 16777216 * bytes.getD (4 * t + 3) 0

/-- The seed grid (texel view of the uploaded initial bytes). -/
def init_grid (r : Nat → Nat) (width height : Nat) : Grid :=
  (List.range (width * height)).map (u32_from_bytes (init_state r width height))

/-- Cell liveness at integer coordinates, with out-of-bounds neighbours
dead.  A texel is live when its value is positive. -/
def cell_alive (g : Grid) (width height : Nat) (x y : Int) : Nat :=
  if 0 ≤ x ∧ x < width ∧ 0 ≤ y ∧ y < height then
    (if g.getD (y.toNat * width + x.toNat) 0 > 0 then 1 else 0)
  else 0

/-- Number of live neighbours in the 3x3 neighbourhood minus the center. -/
def neighbor_sum (g : Grid) (width height : Nat) (x y : Int) : Nat :=
  cell_alive g width height (x - 1) (y - 1) + cell_alive g width height x (y - 1) +
    cell_alive g width height (x + 1) (y - 1) + cell_alive g width height (x - 1) y +
    cell_alive g width height (x + 1) y + cell_alive g width height (x - 1) (y + 1) +
    cell_alive g width height x (y + 1) + cell_alive g width height (x + 1) (y + 1)

/-- Conway's rule for a single cell: a cell is live in the next state when
it has exactly 3 live neighbours, or it is live and has exactly 2. -/
def gol_rule (center : Nat) (n : Nat) : Nat :=
  if n = 3 ∨ (n = 2 ∧ center > 0) then 1 else 0

/-- Modelled from the spec: one Game-of-Life step over the whole grid.
The compute shader `game_of_life.wgsl` is not under src/; the doc comment
of src/example_06_gol/src/main.rs (lines 1-9) describes it as Conway's
Game of Life evaluated on the 3x3 neighbourhood of every texel. -/
def gol_step (width height : Nat) (g : Grid) : Grid :=
  (List.range (width * height)).map fun t =>
    gol_rule (cell_alive g width height (t % width) (t / width))
      (neighbor_sum g width height (t % width) (t / width))

/-- Post-processing of one read-back frame (lines 180-183): each `u32`
texel is mapped to palette index `0` when positive, else `1`. -/
def frame_pixels (texels : Grid) : List Nat :=
  texels.map fun x => if x > 0 then 0 else 1

/-- The sequence of frames emitted by `n` iterations of the loop in `run`:
iteration `i` encodes the pixels of the grid copied into the staging
buffer at iteration `i`.  `r` is the random byte stream seeding
`grids[0]`, `g1` the initial (undefined) contents of `grids[1]`. -/
def gol_frames (r : Nat → Nat) (g1 : Grid) (width height n : Nat) : List (List Nat) :=
  (List.range n).map fun i =>
    frame_pixels (observed_frame_grid (gol_step width height) (init_grid r width height) g1 i)

/-! ## Workgroup dispatch (src/example_06_gol/src/main.rs, launch_kernel) -/

/-- The dispatch issued by `launch_kernel` (lines 282-301):
`dispatch_workgroups(grid_size.width / 16, grid_size.height / 16, 1)`
with Rust's truncating `u32` division. -/
def launch_kernel_workgroups (width height : Nat) : Nat × Nat × Nat :=
  (width / 16, height / 16, 1)

/-- Whether the cell at `(x, y)` is covered by some dispatched workgroup:
workgroup `(gx, gy)` covers the 16x16 block of cells with
`x / 16 = gx` and `y / 16 = gy`, and workgroups `(gx, gy)` are dispatched
for `gx < width / 16`, `gy < height / 16`. -/
def cell_covered (width height x y : Nat) : Prop :=
  x / 16 < (launch_kernel_workgroups width height).1 ∧
    y / 16 < (launch_kernel_workgroups width height).2.1

instance (width height x y : Nat) : Decidable (cell_covered width height x y) := by
  unfold cell_covered
  infer_instance

/-! ## Buffer descriptors (both examples) -/

/-- Texture formats appearing in the repository. -/
inductive TextureFormat
  | Rgba8Unorm
  | R32Uint
  | Depth32Float
deriving DecidableEq, Repr

/-- `format.block_copy_size(None)` for the repository's formats: both
`Rgba8Unorm` (4x u8) and `R32Uint` (1x u32) are 4 bytes per texel. -/
def block_copy_size : TextureFormat → Nat
  | .Rgba8Unorm => 4
  | .R32Uint => 4
  | .Depth32Float => 4

/-- Buffer usage flags appearing in the repository. -/
inductive BufferUsage
  | COPY_DST
  | MAP_READ
deriving DecidableEq, Repr

/-- A buffer descriptor (the fields the claims are about). -/
structure BufferDescriptor where
  size : Nat
  usage : List BufferUsage
  mapped_at_creation : Bool
deriving DecidableEq, Repr

/-- `create_texture_buffer_descriptor`
(src/example_01_triangle/src/main.rs lines 127-137): size is
`texel_size * width * height` with no alignment rounding; usage is
`COPY_DST | MAP_READ`. -/
def create_texture_buffer_descriptor (fmt : TextureFormat) (width height : Nat) :
    BufferDescriptor :=
  { size := block_copy_size fmt * width * height
    usage := [.COPY_DST, .MAP_READ]
    mapped_at_creation := false }

/-- `init_buffer` (src/example_06_gol/src/main.rs lines 252-261): size is
`width * height * 4`; usage is `COPY_DST | MAP_READ`. -/
def init_buffer_descriptor (width height : Nat) : BufferDescriptor :=
  { size := width * height * 4
    usage := [.COPY_DST, .MAP_READ]
    mapped_at_creation := false }

/-- Modelled from the spec: the staging-buffer size the spec prescribes,
namely the row stride (texel size times width, rounded UP to the device's
minimum row alignment `align`) multiplied by the height. -/
def spec_staging_size (align texel width height : Nat) : Nat :=
  ((texel * width + align - 1) / align * align) * height

/-! ## Device initialization (init_wgpu_device, both examples)

`init_wgpu_device` (src/example_01_triangle/src/main.rs lines 79-100 and
src/example_06_gol/src/main.rs lines 202-223) calls
`instance.request_adapter(..).await.unwrap()` — the `unwrap` aborts the
process when no adapter is returned — and then returns
`adapter.request_device(..).await`, a `Result` carrying
`wgpu::RequestDeviceError`. -/

/-- The typed error of `request_device`. -/
inductive RequestDeviceError
  | generic
deriving DecidableEq, Repr

/-- Host-visible outcome of device initialization. -/
inductive DeviceInitOutcome
  | got_device
  | typed_error (e : RequestDeviceError)
  | aborted
deriving DecidableEq, Repr

/-- The control flow of `init_wgpu_device`, as a function of what the
environment returns for the adapter request (an `Option`) and for the
device request (a `Result`): `None.unwrap()` aborts; otherwise the device
request's result is returned as-is. -/
def init_wgpu_device (adapter : Option Unit)
    (device_result : Except RequestDeviceError Unit) : DeviceInitOutcome :=
  match adapter with
  | none => .aborted
  | some _ =>
    match device_result with
    | .ok _ => .got_device
    | .error e => .typed_error e

/-- Whether an outcome is surfaced to the caller as a typed result
(rather than an abort). -/
def is_typed_result : DeviceInitOutcome → Bool
  | .aborted => false
  | _ => true

/-! ## Depth-stencil configuration (src/example_05_camera/src/main.rs) -/

/-- Depth comparison functions (the repository uses `Less`). -/
inductive CompareFunction
  | Never
  | Less
  | Equal
  | LessEqual
  | Greater
  | NotEqual
  | GreaterEqual
  | Always
deriving DecidableEq, Repr

/-- The depth-stencil state of a pipeline descriptor. -/
structure DepthStencilState where
  format : TextureFormat
  depth_write_enabled : Bool
  depth_compare : CompareFunction
deriving DecidableEq, Repr

/-- The depth-stencil state set by `build_simple_pipeline`
(src/example_05_camera/src/main.rs lines 332-341): format
`Depth32Float`, `depth_write_enabled: true`, `depth_compare: Less`. -/
def camera_pipeline_depth_stencil : Option DepthStencilState :=
  some { format := .Depth32Float, depth_write_enabled := true, depth_compare := .Less }

/-- Store operations of a render-pass attachment. -/
inductive StoreOp
  | Store
  | Discard
deriving DecidableEq, Repr

/-- The depth attachment operations of the render pass in `draw_pipeline`
(src/example_05_camera/src/main.rs lines 383-390): clear to `1.0`
(farthest) on load, `Store` the resolved depth back to the target. -/
structure DepthOps where
  load_clear : Rat
  store : StoreOp
deriving DecidableEq, Repr

/-- The concrete depth ops of the camera example's render pass. -/
def camera_depth_ops : DepthOps :=
  { load_clear := 1, store := .Store }

/-- Whether a fragment at depth `dNew` passes the depth test against the
stored depth `dOld` under a comparison function.  `Less` passes exactly
the fragments with strictly lower (nearer) depth — the source comment at
line 337 reads: keep the depth value closest to us (lower values). -/
def compare_passes : CompareFunction → Rat → Rat → Bool
  | .Never, _, _ => false
  | .Less, dNew, dOld => dNew < dOld
  | .Equal, dNew, dOld => dNew = dOld
  | .LessEqual, dNew, dOld => dNew ≤ dOld
  | .Greater, dNew, dOld => dOld < dNew
  | .NotEqual, dNew, dOld => dNew ≠ dOld
  | .GreaterEqual, dNew, dOld => dOld ≤ dNew
  | .Always, _, _ => true

/-! ## Shared lemmas -/

/-- At the start of iteration `i`, slot `i % 2` (the slot the pass of
iteration `i` reads, and the one the copy of iteration `i` sources) holds
the `i`-th iterate of the pass function applied to the seed. -/
theorem pp_input_slot_content (f : Grid → Grid) (g0 g1 : Grid) :
    ∀ i : Nat, slot_content f g0 g1 i (i % 2) = f^[i] g0 := by
  intro i
  induction i with
  | zero => simp [slot_content, pp_state]
  | succ i ih =>
    rcases Nat.mod_two_eq_zero_or_one i with h | h
    · have h2 : (i + 1) % 2 = 1 := by omega
      simp [slot_content, pp_state, h, h2] at ih ⊢
      rw [ih]
      exact (Function.iterate_succ_apply' f i g0).symm.trans (Function.iterate_succ_apply f i g0)
    · have h2 : (i + 1) % 2 = 0 := by omega
      simp [slot_content, pp_state, h, h2] at ih ⊢
      rw [ih]
      exact (Function.iterate_succ_apply' f i g0).symm.trans (Function.iterate_succ_apply f i g0)

/-- The grid copied into the staging buffer at iteration `i` is the `i`-th
iterate of the pass function on the seed, independently of the undefined
initial contents of slot 1. -/
theorem observed_frame_grid_eq_iterate (f : Grid → Grid) (g0 g1 : Grid) (i : Nat) :
    observed_frame_grid f g0 g1 i = f^[i] g0 := by
  have h := pp_input_slot_content f g0 g1 i
  simpa [observed_frame_grid, copy_source_grid] using h

/-- Element `k` of the uploaded initial byte buffer. -/
theorem init_state_getD (r : Nat → Nat) (w h k : Nat) (hk : k < 4 * w * h) :
    (init_state r w h).getD k 0 = if r k > 200 ∧ k % 4 = 0 then 1 else 0 := by
  unfold init_state
  rw [List.getD_eq_getElem?_getD, List.getElem?_map, List.getElem?_range hk]
  rfl

/-- The first texel of the seed grid is live exactly when the first
random draw exceeds 200. -/
theorem u32_first_texel (r : Nat → Nat) :
    u32_from_bytes (init_state r 256 256) 0 = if r 0 > 200 then 1 else 0 := by
  unfold u32_from_bytes
  rw [show (4 * 0 : Nat) = 0 from rfl, show (4 * 0 + 1 : Nat) = 1 from rfl,
    show (4 * 0 + 2 : Nat) = 2 from rfl, show (4 * 0 + 3 : Nat) = 3 from rfl]
  rw [init_state_getD r 256 256 0 (by norm_num), init_state_getD r 256 256 1 (by norm_num),
    init_state_getD r 256 256 2 (by norm_num), init_state_getD r 256 256 3 (by norm_num)]
  norm_num

/-- The first emitted pixel of a single-iteration 256x256 run is the
palette index of the seed grid's first texel. -/
theorem first_pixel_of_single_run (r : Nat → Nat) :
    ((gol_frames r [] 256 256 1).getD 0 []).getD 0 9
      = if u32_from_bytes (init_state r 256 256) 0 > 0 then 0 else 1 := by
  have hsingle : gol_frames r [] 256 256 1 = [frame_pixels (init_grid r 256 256)] := by
    unfold gol_frames
    rw [show List.range 1 = [0] from rfl, List.map_cons, List.map_nil,
      observed_frame_grid_eq_iterate]
    rfl
  rw [hsingle, List.getD_cons_zero]
  unfold frame_pixels init_grid
  rw [List.getD_eq_getElem?_getD, List.getElem?_map, List.getElem?_map,
    List.getElem?_range (show 0 < 256 * 256 by norm_num), Option.map_some', Option.map_some',
    Option.getD_some]

/-- The output slot of iteration `i` is slot `(i + 1) % 2`. -/
theorem output_grid_eq (i : Nat) : output_grid i = (i + 1) % 2 := by
  have e0 : bind_group_output_grid 0 = 1 := rfl
  have e1 : bind_group_output_grid 1 = 0 := rfl
  rcases Nat.mod_two_eq_zero_or_one i with h | h
  · have h2 : (i + 1) % 2 = 1 := by omega
    simp only [output_grid, selected_bind_group, h, h2, e0]
  · have h2 : (i + 1) % 2 = 0 := by omega
    simp only [output_grid, selected_bind_group, h, h2, e1]

/-! ## Claim theorems -/

/-- C1: for every staging buffer, `get_mapped_range` yields data only in
the `Mapped` state: a read attempted in `Unmapped` or `MapRequested`
(before the map completion is confirmed) fails with `BufferBusyError`
rather than returning data, and submitting a new copy into the buffer
while it is `MapRequested` or `Mapped` also fails with
`BufferBusyError`. -/
theorem readback_read_only_when_mapped :
    stepAction .Mapped .get_mapped_range = .ok .Mapped
    ∧ stepAction .Unmapped .get_mapped_range = .error .BufferBusyError
    ∧ stepAction .MapRequested .get_mapped_range = .error .BufferBusyError
    ∧ stepAction .MapRequested .submit_copy = .error .BufferBusyError
    ∧ stepAction .Mapped .submit_copy = .error .BufferBusyError
    ∧ runTrace .Unmapped [.map_async, .get_mapped_range] = .error .BufferBusyError
    ∧ runTrace .Unmapped [.map_async, .poll_wait, .submit_copy] = .error .BufferBusyError :=
  ⟨rfl, rfl, rfl, rfl, rfl, rfl, rfl⟩

/-- C2: the transition `MapRequested → Mapped` occurs only when the host
drives device progress.  The source's readback traces — `map_async`, then
`device.poll(Maintain::Wait)`, then `get_mapped_range` — reach `Mapped`
and read successfully, while any host trace containing no poll leaves a
buffer in `MapRequested` forever (a pure host wait deadlocks). -/
theorem readback_requires_device_poll :
    runTrace .Unmapped readback_buffer_data_trace = .ok .Mapped
    ∧ runTrace .Unmapped to_image_trace = .ok .Mapped
    ∧ ∀ acts : List HostAction, HostAction.poll_wait ∉ acts →
        ∀ s2, runTrace .MapRequested acts = .ok s2 → s2 = .MapRequested := by
  refine ⟨rfl, rfl, ?_⟩
  intro acts
  induction acts with
  | nil =>
    intro _ s2 h
    injection h with h2
    exact h2.symm
  | cons a rest ih =>
    intro hnot s2 h
    have ha : a ≠ .poll_wait := fun he => hnot (he ▸ List.mem_cons_self a rest)
    have hrest : HostAction.poll_wait ∉ rest := fun hm => hnot (List.mem_cons_of_mem a hm)
    cases a with
    | submit_copy => simp [runTrace, stepAction] at h
    | map_async => simp [runTrace, stepAction] at h
    | poll_wait => exact absurd rfl ha
    | host_wait => exact ih hrest s2 h
    | get_mapped_range => simp [runTrace, stepAction] at h
    | unmap_buffer => simp [runTrace, stepAction] at h

/-- Witness for C2: a concrete poll-free trace of pure host waits leaves
the buffer in `MapRequested`. -/
theorem readback_requires_device_poll_witness :
    HostAction.poll_wait ∉ ([.host_wait, .host_wait] : List HostAction)
    ∧ BufferState.MapRequested = BufferState.MapRequested :=
  ⟨by decide,
    readback_requires_device_poll.2.2 [.host_wait, .host_wait] (by decide) .MapRequested rfl⟩

/-- C10: loop invariant of the iterative readback — at the start of every
iteration of the Game-of-Life loop the staging buffer is `Unmapped`
(each iteration unmaps before the next one submits its copy), and in
particular the whole trace of `n` iterations runs without any
`BufferBusyError` and ends `Unmapped`. -/
theorem staging_buffer_unmapped_each_iteration :
    ∀ n : Nat, runTrace .Unmapped (gol_loop_trace n) = .ok .Unmapped
      ∧ stepAction .Unmapped .submit_copy = .ok .Unmapped := by
  intro n
  refine ⟨?_, rfl⟩
  induction n with
  | zero => rfl
  | succ n ih => exact ih

/-- C3: the bind group selected at iteration `i` is `bind_groups[i % 2]`,
and the input-slot role after `n` iterations equals
`initial_role XOR (n % 2)` — a pure function of the iteration count. -/
theorem ping_pong_role_is_xor_of_iteration :
    ∀ n : Nat, selected_bind_group n = n % 2
      ∧ input_grid n = Nat.xor initial_role (n % 2) := by
  intro n
  refine ⟨rfl, ?_⟩
  have e0 : bind_group_input_grid 0 = 0 := rfl
  have e1 : bind_group_input_grid 1 = 1 := rfl
  rcases Nat.mod_two_eq_zero_or_one n with h | h
  · simp only [input_grid, selected_bind_group, h, e0, initial_role]
    decide
  · simp only [input_grid, selected_bind_group, h, e1, initial_role]
    decide

/-- C4: at every iteration `i`, the texture copied into the staging
buffer is `grids[i % 2]` — the current input slot, holding the pre-pass
state (the `i`-th iterate of the step on the seed) — and not the slot
freshly written by this iteration's compute pass (which holds the
`(i+1)`-th iterate); consequently the observed frame at iteration `i + 1`
is exactly what iteration `i` computed, one step behind. -/
theorem observed_frame_lags_one_step :
    ∀ (f : Grid → Grid) (g0 g1 : Grid) (i : Nat),
      copy_source_grid i = input_grid i
      ∧ copy_source_grid i ≠ output_grid i
      ∧ observed_frame_grid f g0 g1 i = f^[i] g0
      ∧ pass_written_grid f g0 g1 i = f^[i + 1] g0
      ∧ observed_frame_grid f g0 g1 (i + 1) = pass_written_grid f g0 g1 i := by
  intro f g0 g1 i
  have e0 : bind_group_input_grid 0 = 0 := rfl
  have e1 : bind_group_input_grid 1 = 1 := rfl
  have hcopy : copy_source_grid i = input_grid i := by
    rcases Nat.mod_two_eq_zero_or_one i with h | h
    · simp only [copy_source_grid, input_grid, selected_bind_group, h, e0]
    · simp only [copy_source_grid, input_grid, selected_bind_group, h, e1]
  have hne : copy_source_grid i ≠ output_grid i := by
    rw [output_grid_eq]
    simp only [copy_source_grid]
    omega
  have hwritten : pass_written_grid f g0 g1 i = f^[i + 1] g0 := by
    rw [pass_written_grid, output_grid_eq]
    exact pp_input_slot_content f g0 g1 (i + 1)
  refine ⟨hcopy, hne, observed_frame_grid_eq_iterate f g0 g1 i, hwritten, ?_⟩
  rw [observed_frame_grid_eq_iterate f g0 g1 (i + 1), hwritten]

/-- C5: the compute dispatch is `(width / 16, height / 16, 1)` with
truncating division; a 256x256 domain dispatches exactly 16x16x1
workgroups, and for a width that is not a multiple of 16 some cell of the
domain is covered by no dispatched workgroup. -/
theorem dispatch_workgroups_truncating :
    launch_kernel_workgroups 256 256 = (16, 16, 1)
    ∧ (∀ width height, launch_kernel_workgroups width height = (width / 16, height / 16, 1))
    ∧ ∀ width height, ¬ (16 ∣ width) → 0 < height →
        ∃ x y, x < width ∧ y < height ∧ ¬ cell_covered width height x y := by
  refine ⟨rfl, fun _ _ => rfl, ?_⟩
  intro w h hw hh
  have hmod : w % 16 ≠ 0 := fun he => hw (Nat.dvd_of_mod_eq_zero he)
  refine ⟨16 * (w / 16), 0, by omega, hh, ?_⟩
  intro hc
  have hx : 16 * (w / 16) / 16 < w / 16 := hc.1
  omega

/-- Witness for C5: the 260x256 domain dispatches workgroups leaving an
uncovered cell. -/
theorem dispatch_workgroups_truncating_witness :
    ¬ (16 ∣ 260) ∧ 0 < 256
    ∧ ∃ x y, x < 260 ∧ y < 256 ∧ ¬ cell_covered 260 256 x y :=
  ⟨by decide, by decide, dispatch_workgroups_truncating.2.2 260 256 (by decide) (by decide)⟩

/-- C6: the staging-buffer descriptors derived for host readback have
usage `COPY_DST | MAP_READ` and size `texel_size * width * height`
computed with no alignment rounding; for the repository's actual readback
textures (4-byte texels, width 256) this coincides with the spec's
alignment-rounded row stride times height (row stride 1024 is already a
multiple of the 256-byte alignment), but the code's formula does not
round in general. -/
theorem staging_descriptor_size_and_usage :
    (∀ fmt width height, (create_texture_buffer_descriptor fmt width height).size
        = block_copy_size fmt * width * height)
    ∧ (create_texture_buffer_descriptor .Rgba8Unorm 256 256).size
        = spec_staging_size 256 4 256 256
    ∧ (create_texture_buffer_descriptor .Rgba8Unorm 256 256).usage = [.COPY_DST, .MAP_READ]
    ∧ (init_buffer_descriptor 256 256).size = spec_staging_size 256 4 256 256
    ∧ (init_buffer_descriptor 256 256).usage = [.COPY_DST, .MAP_READ]
    ∧ ¬ (∀ fmt width height, (create_texture_buffer_descriptor fmt width height).size
        = spec_staging_size 256 (block_copy_size fmt) width height) := by
  refine ⟨fun _ _ _ => rfl, by decide, rfl, by decide, rfl, ?_⟩
  intro hall
  exact absurd (hall .Rgba8Unorm 1 1) (by decide)

/-- C7 (amended): the emitted frame sequence is a deterministic function
of the random draws seeding the initial grid — two runs whose
`thread_rng` byte streams agree on the `4 * width * height` draws used to
build the seed emit identical frame sequences, whatever the undefined
initial contents of the second slot are. -/
theorem gol_frames_determined_by_rng :
    ∀ (width height n : Nat) (r1 r2 : Nat → Nat) (g1 g1b : Grid),
      (∀ i, i < 4 * width * height → r1 i = r2 i) →
      gol_frames r1 g1 width height n = gol_frames r2 g1b width height n := by
  intro w h n r1 r2 g1 g1b hr
  have hinit : init_grid r1 w h = init_grid r2 w h := by
    have hstate : init_state r1 w h = init_state r2 w h := by
      unfold init_state
      apply List.map_congr_left
      intro i hi
      rw [hr i (List.mem_range.mp hi)]
    unfold init_grid
    rw [hstate]
  have hframes : ∀ (r : Nat → Nat) (g : Grid),
      gol_frames r g w h n = (List.range n).map
        (fun i => frame_pixels ((gol_step w h)^[i] (init_grid r w h))) := by
    intro r g
    unfold gol_frames
    apply List.map_congr_left
    intro i _
    rw [observed_frame_grid_eq_iterate]
  rw [hframes r1 g1, hframes r2 g1b, hinit]

/-- Witness for C7 (amended): two rng streams agreeing on the four draws
of a 1x1 grid produce the same frames, even with different undefined
contents in the second slot. -/
theorem gol_frames_determined_by_rng_witness :
    gol_frames (fun _ => 0) [] 1 1 1
      = gol_frames (fun i => if i < 4 then 0 else 99) [7] 1 1 1 :=
  gol_frames_determined_by_rng 1 1 1 (fun _ => 0) (fun i => if i < 4 then 0 else 99) [] [7]
    (by
      intro i hi
      have h4 : i < 4 := by omega
      simp [h4])

/-- Counterexample for C7 as stated: the program takes no fixed seed —
the initial grid comes from `rand::thread_rng` — and two runs identical
in every program input but with different thread_rng draws emit different
frame sequences for the same 256x256 domain and iteration count. -/
theorem gol_frames_not_reproducible :
    gol_frames (fun _ => 201) [] 256 256 1 ≠ gol_frames (fun _ => 0) [] 256 256 1 := by
  intro hEq
  have h1 := first_pixel_of_single_run (fun _ => 201)
  have h2 := first_pixel_of_single_run (fun _ => 0)
  rw [u32_first_texel] at h1 h2
  norm_num at h1 h2
  rw [hEq] at h1
  exact absurd (h1.symm.trans h2) (by decide)

/-- C8 (amended): device acquisition returns the typed
`RequestDeviceError` result of `request_device` when an adapter exists,
but when no compatible adapter is found the `unwrap` on the adapter
request aborts the process instead of returning a typed error. -/
theorem device_init_behavior :
    (∀ device_result, init_wgpu_device none device_result = .aborted)
    ∧ (∀ e, init_wgpu_device (some ()) (.error e) = .typed_error e)
    ∧ init_wgpu_device (some ()) (.ok ()) = .got_device :=
  ⟨fun _ => rfl, fun _ => rfl, rfl⟩

/-- Counterexample for C8 as stated: with no compatible adapter the
outcome is an abort, not a typed result. -/
theorem device_init_aborts_counterexample :
    init_wgpu_device none (.ok ()) = .aborted
    ∧ is_typed_result (init_wgpu_device none (.ok ())) = false :=
  ⟨rfl, rfl⟩

/-- C9: the camera pipeline enables depth testing with format
`Depth32Float`, the `Less` comparison — which passes exactly the
fragments strictly nearer (lower depth) than the stored value — and depth
writing enabled, and the render pass stores the resolved depth back to
the depth target. -/
theorem depth_pipeline_keeps_nearer_and_writes :
    camera_pipeline_depth_stencil
      = some { format := .Depth32Float, depth_write_enabled := true, depth_compare := .Less }
    ∧ (∀ dNew dOld : Rat, compare_passes .Less dNew dOld = true ↔ dNew < dOld)
    ∧ camera_depth_ops.store = .Store := by
  refine ⟨rfl, ?_, rfl⟩
  intro a b
  simp [compare_passes]

end WgpuTutorial
